import Mathlib

/-!
Shallow embedding of the churn-risk core of `src/predict_churn.py`
(class `ChurnPredictor` and the report-building part of `main`).

Python floats are modelled as rationals (`ℚ`), charge counts as naturals
(they are counts of Stripe charge objects), and the customer-feature
dictionary as a structure of `Option`-typed fields: `none` models an
absent dictionary key, and every `customer_data.get(key, default)` in the
source becomes `Option.getD`.
-/

/-- The per-customer feature dictionary built by
`ChurnPredictor._extract_customer_features` (lines 71-122) and consumed by
the scorer.  Fields the scorer and recommendation engine read through
`.get` are `Option`-typed; `none` is an absent key. -/
structure CustomerFeatureRecord where
  customer_id : String := ""
  email : Option String := none
  created : Option Int := none
  currency : Option String := none
  subscription_status : Option String := none
  cancel_at_period_end : Option Bool := none
  trial_end : Option Int := none
  days_until_renewal : Option ℚ := none
  failed_charges : Option Nat := none
  total_charges : Option Nat := none
  default_source : Option Bool := none
  customer_age_days : Option ℚ := none

/-- Lines 128-139: contribution of `subscription_status` to the risk score
(the `if/elif` chain on `status`). -/
def statusScore (status : String) : ℚ :=
  if status = "canceled" then 100
  else if status = "past_due" then 80
  else if status = "unpaid" then 90
  else if status = "trialing" then 20
  else if status = "none" then 50
  else 0

/-- Lines 141-143: `+70` when `cancel_at_period_end` is truthy. -/
def cancelScore (cancel_at_period_end : Bool) : ℚ :=
  if cancel_at_period_end then 70 else 0

/-- Lines 146-150: `failure_rate * 40` guarded by `if total_charges > 0`.
Python true division of the two counts is exact rational division here. -/
def paymentScore (failed_charges total_charges : Nat) : ℚ :=
  if 0 < total_charges then
    (failed_charges : ℚ) / (total_charges : ℚ) * 40
  else 0

/-- Lines 152-157: `+30` when `0 < days_until_renewal < 7`, else `+50`
when `days_until_renewal < 0`. -/
def renewalScore (days_until_renewal : ℚ) : ℚ :=
  if 0 < days_until_renewal ∧ days_until_renewal < 7 then 30
  else if days_until_renewal < 0 then 50
  else 0

/-- Lines 159-161: `+30` when there is no default payment source. -/
def sourceScore (default_source : Bool) : ℚ :=
  if default_source then 0 else 30

/-- Lines 163-166: `+15` when `customer_age_days < 30`. -/
def ageScore (customer_age_days : ℚ) : ℚ :=
  if customer_age_days < 30 then 15 else 0

/-- The raw accumulated `risk_score` of
`ChurnPredictor.calculate_churn_risk` (lines 124-166) before the final
clamp: the six additive rule contributions, each read through the
dictionary defaults of the source (`status` defaults to `"none"`,
`cancel_at_period_end` and `default_source` to `False`, `failed_charges`
to `0`, `total_charges` to `1`, the two day counts to `0`). -/
def raw_risk_sum (c : CustomerFeatureRecord) : ℚ :=
  statusScore (c.subscription_status.getD "none")
    + cancelScore (c.cancel_at_period_end.getD false)
    + paymentScore (c.failed_charges.getD 0) (c.total_charges.getD 1)
    + renewalScore (c.days_until_renewal.getD 0)
    + sourceScore (c.default_source.getD false)
    + ageScore (c.customer_age_days.getD 0)

/-- `ChurnPredictor.calculate_churn_risk` (lines 124-168):
`return min(100, risk_score)`. -/
def calculate_churn_risk (c : CustomerFeatureRecord) : ℚ :=
  min 100 (raw_risk_sum c)

/-- The four risk buckets of lines 177-185. -/
inductive RiskLevel
  | Low
  | Medium
  | High
  | Critical
deriving DecidableEq

/-- The `if/elif/else` categorisation of `risk_score` inside
`ChurnPredictor.predict_churn` (lines 177-185). -/
def categorize_risk (risk_score : ℚ) : RiskLevel :=
  if risk_score < 30 then .Low
  else if risk_score < 60 then .Medium
  else if risk_score < 80 then .High
  else .Critical

/-- `ChurnPredictor.get_recommendations` (lines 202-230): the rule
predicates fire independently, in source order, each appending its
message(s); when nothing fired, the single fallback message is returned. -/
def get_recommendations (c : CustomerFeatureRecord) (risk_score : ℚ) : List String :=
  let recs : List String := []
  let recs := if 80 < risk_score then
      recs ++ ["🚨 CRITICAL: Immediate intervention required",
               "   - Reach out personally to customer",
               "   - Offer discount or extended trial",
               "   - Review payment method issues"]
    else recs
  let recs := if 0 < c.failed_charges.getD 0 then
      recs ++ ["💳 Payment failures detected - update payment method"]
    else recs
  let recs := if c.cancel_at_period_end.getD false then
      recs ++ ["⏰ Customer scheduled cancellation - offer retention deal"]
    else recs
  let recs := if c.default_source.getD false then recs
    else recs ++ ["💳 No payment method on file - request update"]
  let recs := if c.days_until_renewal.getD 0 < 7 ∧ 0 < c.days_until_renewal.getD 0 then
      recs ++ ["📅 Renewal approaching - send reminder and offer"]
    else recs
  let recs := if c.customer_age_days.getD 0 < 30 then
      recs ++ ["🆕 New customer - ensure onboarding is complete"]
    else recs
  if recs = [] then ["✅ Customer appears healthy - maintain engagement"] else recs

/-- Python `round` ties-to-even, on an exact rational. -/
def round_half_even (x : ℚ) : ℤ :=
  let fl := ⌊x⌋
  if x - fl < 1 / 2 then fl
  else if 1 / 2 < x - fl then fl + 1
  else if fl % 2 = 0 then fl else fl + 1

/-- Python `round(x, ndigits)` on an exact rational. -/
def round_to (ndigits : Nat) (x : ℚ) : ℚ :=
  (round_half_even (x * 10 ^ ndigits) : ℚ) / 10 ^ ndigits

/-- One row of the report dictionary built at lines 187-196: the
`Risk Score` column is the score rounded to 2 decimals, `Risk Level` is
categorised from the unrounded score, the day counts are rounded to 1
decimal, and missing `email`/`subscription_status` display as `"N/A"`. -/
structure RiskResult where
  customer_id : String
  email : String
  status : String
  risk_score : ℚ
  risk_level : RiskLevel
  failed_charges : Nat
  days_until_renewal : ℚ
  customer_age_days : ℚ

/-- Lines 174-196: the result row appended for one customer. -/
def risk_row (c : CustomerFeatureRecord) : RiskResult :=
  let risk_score := calculate_churn_risk c
  { customer_id := c.customer_id
    email := c.email.getD "N/A"
    status := c.subscription_status.getD "N/A"
    risk_score := round_to 2 risk_score
    risk_level := categorize_risk risk_score
    failed_charges := c.failed_charges.getD 0
    days_until_renewal := round_to 1 (c.days_until_renewal.getD 0)
    customer_age_days := round_to 1 (c.customer_age_days.getD 0) }

/-- Insertion step of a stable descending sort on the `Risk Score`
column: a row moves ahead only of rows with strictly smaller score. -/
def insert_desc (r : RiskResult) : List RiskResult → List RiskResult
  | [] => [r]
  | x :: xs => if x.risk_score < r.risk_score then r :: x :: xs else x :: insert_desc r xs

/-- Stable descending sort on the `Risk Score` column.  This models
`df.sort_values('Risk Score', ascending=False)` (line 199) as numpy
evaluates it on frames of fewer than 16 rows (insertion sort composed
with the double index reversal pandas applies for descending order);
the default sort kind `quicksort` gives no such tie-order guarantee on
larger frames. -/
def sort_by_risk_desc (rows : List RiskResult) : List RiskResult :=
  rows.foldr insert_desc []

/-- `ChurnPredictor.predict_churn` (lines 170-200).  On an empty customer
list, `results` is empty, so `pd.DataFrame(results)` has no columns and
`df.sort_values('Risk Score', ascending=False)` raises
`KeyError: 'Risk Score'`; this is modelled as `Except.error`. -/
def predict_churn (customers : List CustomerFeatureRecord) : Except String (List RiskResult) :=
  let results := customers.map risk_row
  if results.isEmpty then Except.error "KeyError: Risk Score"
  else Except.ok (sort_by_risk_desc results)

/-- What `main` surfaces: either the distinct "No customers found" path
(line 247-249, taken before the aggregator runs) or the sorted report
with the four summary bucket counts of lines 288-291 (the counts filter
the report's rounded `Risk Score` column). -/
inductive PipelineOutput
  | noData
  | report (rows : List RiskResult) (low medium high critical : Nat)

/-- The report-building part of `main` (lines 241-295, excluding Stripe
retrieval, printing and CSV export): empty input short-circuits to the
"No customers found" branch; otherwise `predict_churn` runs and the four
summary counts are computed over the report. -/
def run_pipeline (customers : List CustomerFeatureRecord) : Except String PipelineOutput :=
  if customers.isEmpty then Except.ok PipelineOutput.noData
  else
    (predict_churn customers).map (fun rows =>
      PipelineOutput.report rows
        (rows.filter (fun r => r.risk_score < 30)).length
        (rows.filter (fun r => 30 ≤ r.risk_score ∧ r.risk_score < 60)).length
        (rows.filter (fun r => 60 ≤ r.risk_score ∧ r.risk_score < 80)).length
        (rows.filter (fun r => 80 ≤ r.risk_score)).length)

/-! ## Helper lemmas -/

theorem statusScore_active : statusScore "active" = 0 := rfl

theorem statusScore_canceled : statusScore "canceled" = 100 := rfl

theorem statusScore_past_due : statusScore "past_due" = 80 := rfl

theorem statusScore_nonneg (s : String) : 0 ≤ statusScore s := by
  unfold statusScore; split_ifs <;> norm_num

theorem cancelScore_nonneg (b : Bool) : 0 ≤ cancelScore b := by
  unfold cancelScore; split_ifs <;> norm_num

theorem paymentScore_nonneg (f t : Nat) : 0 ≤ paymentScore f t := by
  unfold paymentScore; split_ifs <;> positivity

theorem renewalScore_nonneg (d : ℚ) : 0 ≤ renewalScore d := by
  unfold renewalScore; split_ifs <;> norm_num

theorem sourceScore_nonneg (b : Bool) : 0 ≤ sourceScore b := by
  unfold sourceScore; split_ifs <;> norm_num

theorem ageScore_nonneg (a : ℚ) : 0 ≤ ageScore a := by
  unfold ageScore; split_ifs <;> norm_num

theorem raw_risk_sum_nonneg (c : CustomerFeatureRecord) : 0 ≤ raw_risk_sum c := by
  unfold raw_risk_sum
  have h1 := statusScore_nonneg (c.subscription_status.getD "none")
  have h2 := cancelScore_nonneg (c.cancel_at_period_end.getD false)
  have h3 := paymentScore_nonneg (c.failed_charges.getD 0) (c.total_charges.getD 1)
  have h4 := renewalScore_nonneg (c.days_until_renewal.getD 0)
  have h5 := sourceScore_nonneg (c.default_source.getD false)
  have h6 := ageScore_nonneg (c.customer_age_days.getD 0)
  linarith

/-! ## Claims -/

/-- Claim C1: for every customer feature record, the churn risk score
returned by `calculate_churn_risk` satisfies `0 ≤ score ≤ 100`: every
rule contribution is non-negative, so the raw sum is non-negative, and
`min 100` clamps the result above at 100. -/
theorem C1_risk_score_bounds (c : CustomerFeatureRecord) :
    0 ≤ calculate_churn_risk c ∧ calculate_churn_risk c ≤ 100 := by
  unfold calculate_churn_risk
  exact ⟨le_min (by norm_num) (raw_risk_sum_nonneg c), min_le_left _ _⟩

/-- Claim C2: the risk level is exactly Low for score < 30, Medium for
30 ≤ score < 60, High for 60 ≤ score < 80, and Critical for score ≥ 80;
in particular 29.99 maps to Low, 30 to Medium, 59.99 to Medium, 60 to
High, 79.99 to High and 80 to Critical. -/
theorem C2_categorize_thresholds :
    (∀ s : ℚ,
      (s < 30 → categorize_risk s = RiskLevel.Low) ∧
      (30 ≤ s → s < 60 → categorize_risk s = RiskLevel.Medium) ∧
      (60 ≤ s → s < 80 → categorize_risk s = RiskLevel.High) ∧
      (80 ≤ s → categorize_risk s = RiskLevel.Critical)) ∧
    categorize_risk (2999 / 100) = RiskLevel.Low ∧
    categorize_risk 30 = RiskLevel.Medium ∧
    categorize_risk (5999 / 100) = RiskLevel.Medium ∧
    categorize_risk 60 = RiskLevel.High ∧
    categorize_risk (7999 / 100) = RiskLevel.High ∧
    categorize_risk 80 = RiskLevel.Critical := by
  refine ⟨fun s => ⟨fun h => ?_, fun h1 h2 => ?_, fun h1 h2 => ?_, fun h => ?_⟩,
    by norm_num [categorize_risk], by norm_num [categorize_risk],
    by norm_num [categorize_risk], by norm_num [categorize_risk],
    by norm_num [categorize_risk], by norm_num [categorize_risk]⟩ <;>
    unfold categorize_risk <;> split_ifs <;> first | rfl | linarith

/-- Witness for claim C2 at the concrete scores 0, 45, 70 and 95. -/
theorem C2_witness :
    categorize_risk 0 = RiskLevel.Low ∧ categorize_risk 45 = RiskLevel.Medium ∧
    categorize_risk 70 = RiskLevel.High ∧ categorize_risk 95 = RiskLevel.Critical :=
  ⟨(C2_categorize_thresholds.1 0).1 (by norm_num),
   (C2_categorize_thresholds.1 45).2.1 (by norm_num) (by norm_num),
   (C2_categorize_thresholds.1 70).2.2.1 (by norm_num) (by norm_num),
   (C2_categorize_thresholds.1 95).2.2.2 (by norm_num)⟩

/-- A customer record on which every scoring rule contributes 0; the
`customer_id` is the decimal rendering of the index, so distinct indices
give distinct records with identical risk scores. -/
def healthy_record (i : Nat) : CustomerFeatureRecord :=
  { customer_id := toString i
    subscription_status := some "active"
    cancel_at_period_end := some false
    failed_charges := some 0
    total_charges := some 5
    default_source := some true
    days_until_renewal := some 10
    customer_age_days := some 100 }

/-- Claim C3, code evaluated at the failing input: every record of the
family `healthy_record 0 .. healthy_record 16` receives risk score 0, so
a 17-record input consists entirely of tied, pairwise distinct rows,
exercising the tie-breaking behaviour of the report sort.  The tie order
the code actually produces is decided by pandas
`sort_values(kind='quicksort')`, which guarantees no stable order for
frames of 16 or more rows. -/
theorem C3_tied_input_scores :
    (∀ i : Nat, calculate_churn_risk (healthy_record i) = 0) ∧
    (healthy_record 0).customer_id ≠ (healthy_record 1).customer_id := by
  constructor
  · intro i
    norm_num [calculate_churn_risk, raw_risk_sum, healthy_record, statusScore_active,
      cancelScore, paymentScore, renewalScore, sourceScore, ageScore]
  · decide

/-- Claim C4: a record whose `total_charges` field is the explicit value
0 takes the `else` branch of the `if total_charges > 0` guard, so the
payment-failure term adds 0 and no division happens: the score equals
the score of the same record with `failed_charges` set to 0. -/
theorem C4_zero_total_guard (c : CustomerFeatureRecord) (h : c.total_charges = some 0) :
    calculate_churn_risk c = calculate_churn_risk { c with failed_charges := some 0 } := by
  unfold calculate_churn_risk raw_risk_sum
  simp [h, paymentScore]

/-- A record with an explicit `total_charges = 0` and five failed charges. -/
def zero_total_record : CustomerFeatureRecord :=
  { customer_id := "cus_zero"
    subscription_status := some "past_due"
    failed_charges := some 5
    total_charges := some 0
    days_until_renewal := some 3 }

/-- Witness for claim C4 at a concrete record with `total_charges = 0`
and `failed_charges = 5`. -/
theorem C4_witness :
    zero_total_record.total_charges = some 0 ∧
    calculate_churn_risk zero_total_record =
      calculate_churn_risk { zero_total_record with failed_charges := some 0 } :=
  ⟨rfl, C4_zero_total_guard zero_total_record rfl⟩

/-- A record whose `total_charges` key is absent but which has one
failed charge; every other rule contributes 0. -/
def absent_total_record : CustomerFeatureRecord :=
  { customer_id := "cus_absent"
    subscription_status := some "active"
    cancel_at_period_end := some false
    failed_charges := some 1
    total_charges := none
    default_source := some true
    days_until_renewal := some 10
    customer_age_days := some 100 }

/-- Counterexample to claim C5: for a record with the `total_charges`
key absent and `failed_charges = 1`, the scorer defaults `total_charges`
to 1 (not to the documented default 0), so the payment-failure term
contributes `1/1 * 40 = 40` rather than 0: the score is 40, while
zeroing `failed_charges` gives 0. -/
theorem C5_counterexample :
    absent_total_record.total_charges = none ∧
    calculate_churn_risk absent_total_record = 40 ∧
    calculate_churn_risk { absent_total_record with failed_charges := some 0 } = 0 := by
  refine ⟨rfl, ?_, ?_⟩ <;>
    norm_num [calculate_churn_risk, raw_risk_sum, absent_total_record, statusScore_active,
      cancelScore, paymentScore, renewalScore, sourceScore, ageScore]

/-- Claim C5 as amended: when the `total_charges` key is absent the
scorer substitutes the dictionary default 1, so the payment-failure term
contributes `failed_charges * 40` (before the final clamp), not 0. -/
theorem C5_absent_total_defaults_to_one (c : CustomerFeatureRecord)
    (h : c.total_charges = none) :
    calculate_churn_risk c = min 100
      (statusScore (c.subscription_status.getD "none")
        + cancelScore (c.cancel_at_period_end.getD false)
        + (c.failed_charges.getD 0 : ℚ) * 40
        + renewalScore (c.days_until_renewal.getD 0)
        + sourceScore (c.default_source.getD false)
        + ageScore (c.customer_age_days.getD 0)) := by
  unfold calculate_churn_risk raw_risk_sum paymentScore
  simp [h]

/-- Witness for amended claim C5 at a concrete record with the
`total_charges` key absent. -/
theorem C5_amended_witness :
    absent_total_record.total_charges = none ∧
    calculate_churn_risk absent_total_record = min 100
      (statusScore (absent_total_record.subscription_status.getD "none")
        + cancelScore (absent_total_record.cancel_at_period_end.getD false)
        + (absent_total_record.failed_charges.getD 0 : ℚ) * 40
        + renewalScore (absent_total_record.days_until_renewal.getD 0)
        + sourceScore (absent_total_record.default_source.getD false)
        + ageScore (absent_total_record.customer_age_days.getD 0)) :=
  ⟨rfl, C5_absent_total_defaults_to_one absent_total_record rfl⟩

/-- Scenario A of the spec: canceled subscription, scheduled
cancellation, 3 failed of 3 charges, no payment source, renewal overdue
by 5 days, customer 10 days old. -/
def scenario_a : CustomerFeatureRecord :=
  { customer_id := "cus_a"
    subscription_status := some "canceled"
    cancel_at_period_end := some true
    failed_charges := some 3
    total_charges := some 3
    default_source := some false
    days_until_renewal := some (-5)
    customer_age_days := some 10 }

/-- Claim C6: on scenario A the raw rule sum is 305
(100 + 70 + 40 + 50 + 30 + 15), the clamped score is exactly 100, and
the assigned level is Critical. -/
theorem C6_scenario_a :
    raw_risk_sum scenario_a = 305 ∧ calculate_churn_risk scenario_a = 100 ∧
    categorize_risk (calculate_churn_risk scenario_a) = RiskLevel.Critical := by
  refine ⟨?_, ?_, ?_⟩ <;>
    norm_num [calculate_churn_risk, raw_risk_sum, scenario_a, statusScore_canceled, cancelScore,
      paymentScore, renewalScore, sourceScore, ageScore, categorize_risk]

/-- Claim C7: when exactly recommendation rules 1, 3 and 5 fire
(score > 80, scheduled cancellation, renewal within 7 days, and no other
rule's condition holds), `get_recommendations` returns exactly the
four-line critical-intervention block, the retention-offer message and
the renewal-reminder message, in that evaluation order, with no
fallback; determinism is immediate since the engine is a pure function
of `(record, score)`. -/
theorem C7_rules_one_three_five (c : CustomerFeatureRecord) (risk_score : ℚ)
    (h1 : 80 < risk_score)
    (h2 : c.failed_charges.getD 0 = 0)
    (h3 : c.cancel_at_period_end.getD false = true)
    (h4 : c.default_source.getD false = true)
    (h5a : 0 < c.days_until_renewal.getD 0)
    (h5b : c.days_until_renewal.getD 0 < 7)
    (h6 : ¬ c.customer_age_days.getD 0 < 30) :
    get_recommendations c risk_score =
      ["🚨 CRITICAL: Immediate intervention required",
       "   - Reach out personally to customer",
       "   - Offer discount or extended trial",
       "   - Review payment method issues",
       "⏰ Customer scheduled cancellation - offer retention deal",
       "📅 Renewal approaching - send reminder and offer"] := by
  unfold get_recommendations
  simp [h1, h2, h3, h4, h5a, h5b, h6]

/-- A record matching recommendation rules 3 and 5 and no others. -/
def rules135_record : CustomerFeatureRecord :=
  { customer_id := "cus_r135"
    cancel_at_period_end := some true
    failed_charges := some 0
    total_charges := some 5
    default_source := some true
    days_until_renewal := some 3
    customer_age_days := some 100 }

/-- Witness for claim C7 at a concrete record and score 85. -/
theorem C7_witness :
    (80 : ℚ) < 85 ∧
    get_recommendations rules135_record 85 =
      ["🚨 CRITICAL: Immediate intervention required",
       "   - Reach out personally to customer",
       "   - Offer discount or extended trial",
       "   - Review payment method issues",
       "⏰ Customer scheduled cancellation - offer retention deal",
       "📅 Renewal approaching - send reminder and offer"] :=
  ⟨by norm_num,
   C7_rules_one_three_five rules135_record 85 (by norm_num) rfl rfl rfl
     (by norm_num [rules135_record]) (by norm_num [rules135_record])
     (by norm_num [rules135_record])⟩

/-- Claim C8: with all other fields fixed and `total_charges` (after its
default) positive, the risk score is monotone non-decreasing in
`failed_charges`. -/
theorem C8_monotone_in_failed_charges (c : CustomerFeatureRecord) (f1 f2 : Nat)
    (hf : f1 ≤ f2) (ht : 0 < c.total_charges.getD 1) :
    calculate_churn_risk { c with failed_charges := some f1 } ≤
      calculate_churn_risk { c with failed_charges := some f2 } := by
  unfold calculate_churn_risk raw_risk_sum
  apply min_le_min le_rfl
  simp only [Option.getD_some]
  have key : paymentScore f1 (c.total_charges.getD 1) ≤
      paymentScore f2 (c.total_charges.getD 1) := by
    unfold paymentScore
    rw [if_pos ht, if_pos ht]
    have hc : (0 : ℚ) < (c.total_charges.getD 1 : ℚ) := by exact_mod_cast ht
    have hff : (f1 : ℚ) ≤ (f2 : ℚ) := by exact_mod_cast hf
    exact mul_le_mul_of_nonneg_right (div_le_div_of_nonneg_right hff hc.le) (by norm_num)
  linarith [key]

/-- A base record with four total charges, used to instantiate the
monotonicity claim. -/
def monotone_base_record : CustomerFeatureRecord :=
  { customer_id := "cus_mono"
    subscription_status := some "active"
    total_charges := some 4
    default_source := some true
    days_until_renewal := some 20
    customer_age_days := some 90 }

/-- Witness for claim C8: 0 versus 2 failed charges out of 4. -/
theorem C8_witness :
    (0 : Nat) ≤ 2 ∧ 0 < monotone_base_record.total_charges.getD 1 ∧
    calculate_churn_risk { monotone_base_record with failed_charges := some 0 } ≤
      calculate_churn_risk { monotone_base_record with failed_charges := some 2 } :=
  ⟨by norm_num, by decide,
   C8_monotone_in_failed_charges monotone_base_record 0 2 (by norm_num) (by decide)⟩

/-- Counterexample to claim C9: on the empty record list the aggregator
`predict_churn` does not produce an empty report (flagged or otherwise):
`pd.DataFrame([])` has no `Risk Score` column, so `sort_values` raises
`KeyError`, modelled as `Except.error`.  In particular the result is not
the empty report. -/
theorem C9_counterexample :
    predict_churn [] = Except.error "KeyError: Risk Score" ∧
    predict_churn [] ≠ Except.ok [] := by
  refine ⟨rfl, ?_⟩
  intro h
  simp [predict_churn] at h

/-- Claim C9 as amended: on the empty record list the pipeline
short-circuits in `main` to the distinct `noData` outcome — a signal
distinguishable by construction from every populated report — producing
no report rows and no summary counts; the aggregator itself never runs
on empty input. -/
theorem C9_empty_input_no_data : run_pipeline [] = Except.ok PipelineOutput.noData := rfl

/-- Claim C10: the risk score reads only the seven fields
`subscription_status`, `cancel_at_period_end`, `failed_charges`,
`total_charges`, `days_until_renewal`, `default_source` and
`customer_age_days`; two records agreeing on those seven receive the
same score whatever their `customer_id`, `email`, `created`, `currency`
or `trial_end`. -/
theorem C10_score_depends_on_seven_fields (c1 c2 : CustomerFeatureRecord)
    (h1 : c1.subscription_status = c2.subscription_status)
    (h2 : c1.cancel_at_period_end = c2.cancel_at_period_end)
    (h3 : c1.failed_charges = c2.failed_charges)
    (h4 : c1.total_charges = c2.total_charges)
    (h5 : c1.days_until_renewal = c2.days_until_renewal)
    (h6 : c1.default_source = c2.default_source)
    (h7 : c1.customer_age_days = c2.customer_age_days) :
    calculate_churn_risk c1 = calculate_churn_risk c2 := by
  unfold calculate_churn_risk raw_risk_sum
  rw [h1, h2, h3, h4, h5, h6, h7]

/-- First of two records that agree on the seven scored fields but
differ on id, email, creation time, currency and trial end. -/
def record_ids_a : CustomerFeatureRecord :=
  { customer_id := "cus_100"
    email := some "a@example.com"
    created := some 1700000000
    currency := some "usd"
    subscription_status := some "active"
    cancel_at_period_end := some false
    trial_end := some 0
    days_until_renewal := some 12
    failed_charges := some 1
    total_charges := some 4
    default_source := some true
    customer_age_days := some 200 }

/-- Second record of the pair: same seven scored fields, different
identity fields. -/
def record_ids_b : CustomerFeatureRecord :=
  { record_ids_a with
    customer_id := "cus_200"
    email := some "b@example.com"
    created := some 1600000000
    currency := some "eur"
    trial_end := some 99 }

/-- Witness for claim C10 at the concrete record pair. -/
theorem C10_witness :
    record_ids_a.customer_id ≠ record_ids_b.customer_id ∧
    record_ids_a.email ≠ record_ids_b.email ∧
    calculate_churn_risk record_ids_a = calculate_churn_risk record_ids_b :=
  ⟨by decide, by decide,
   C10_score_depends_on_seven_fields record_ids_a record_ids_b rfl rfl rfl rfl rfl rfl rfl⟩
